import Mathlib

/-!
Verification of the analyzer-pipeline initializer
(`src/tokenizer/tokenizer_initializer.rs`, `TokenizerInitializer::init`).

The initializer takes a parsed JSON configuration (an object mapping analyzer
names to pipeline specifications), and for each entry extracts the tokenizer
reference, builds the configured filters, builds the tokenizer, and registers
the result in a tokenizer manager.  We embed the JSON data model, the
initializer's control flow (including its panics, modelled as errors), and the
registry, and prove/refute the specified properties.

Conventions of the embedding:
* `serde_json::Value` becomes the inductive `Bayard.Json`; the external JSON
  parser is out of scope, so `init` takes the parsed value directly and the
  top-level object's entry list stands for the configuration mapping in its
  iteration order.
* Every `.unwrap()` panic and `panic!` in the source becomes an
  `InitError`; execution is modelled with `Except` / an error component.
* Factories and the tantivy tokenizer library live outside the source file;
  the definitions concerned carry a `Modelled from the spec:` note.
-/

namespace Bayard

/-- JSON values, embedding `serde_json::Value`.  Numbers are restricted to
integers, which covers every configuration the claims mention. -/
inductive Json where
  | null : Json
  | bool : Bool → Json
  | num : Int → Json
  | str : String → Json
  | arr : List Json → Json
  | obj : List (String × Json) → Json

/-- Escape one character for JSON string output, as `serde_json::to_string`
does for the quote and backslash (the only special characters occurring in the
configurations considered here). -/
def escapeChar (c : Char) : String :=
  if c = '"' then "\\\"" else if c = '\\' then "\\\\" else String.singleton c

/-- Render a string as a JSON string literal. -/
def renderStr (s : String) : String :=
  "\"" ++ String.join (s.data.map escapeChar) ++ "\""

mutual

/-- Compact serialization of a JSON value, embedding `serde_json::to_string`
(no whitespace, object fields in map iteration order). -/
def Json.render : Json → String
  | .null => "null"
  | .bool true => "true"
  | .bool false => "false"
  | .num n => n.repr
  | .str s => renderStr s
  | .arr xs => "[" ++ Json.renderList xs ++ "]"
  | .obj kvs => "\x7b" ++ Json.renderObj kvs ++ "\x7d"

/-- Serialize the elements of a JSON array, comma-separated. -/
def Json.renderList : List Json → String
  | [] => ""
  | [x] => Json.render x
  | x :: y :: xs => Json.render x ++ "," ++ Json.renderList (y :: xs)

/-- Serialize the fields of a JSON object, comma-separated. -/
def Json.renderObj : List (String × Json) → String
  | [] => ""
  | [(k, v)] => renderStr k ++ ":" ++ Json.render v
  | (k, v) :: p :: kvs =>
      renderStr k ++ ":" ++ Json.render v ++ "," ++ Json.renderObj (p :: kvs)

end

/-- `Value::as_object`: the field list of an object, `none` otherwise. -/
def Json.asObj? : Json → Option (List (String × Json))
  | .obj kvs => some kvs
  | _ => none

/-- `Value::as_array`: the element list of an array, `none` otherwise. -/
def Json.asArr? : Json → Option (List Json)
  | .arr xs => some xs
  | _ => none

/-- `Value::as_str`: the string of a JSON string, `none` otherwise. -/
def Json.asStr? : Json → Option String
  | .str s => some s
  | _ => none

/-- Key lookup in an object's field list (`Map::get` / `contains_key`); the
parsed map of `serde_json` has unique keys, so first match suffices. -/
def jlookup : List (String × Json) → String → Option Json
  | [], _ => none
  | (k, v) :: rest, key => if k = key then some v else jlookup rest key

/-- A token produced by analysis, embedding `tantivy::tokenizer::Token`:
the token text plus byte offsets into the original input. -/
structure Token where
  text : String
  offset_from : Nat
  offset_to : Nat
deriving DecidableEq, Repr

/-- Modelled from the spec: the `simple` tokenizer supplied by the external
text-analysis library (`SimpleTokenizerFactory` and tantivy's
`SimpleTokenizer` are not under `src/`).  Per the spec it "splits on
non-alphanumeric boundaries": maximal alphanumeric runs become tokens and the
offsets are byte offsets into the source text.  Alphanumeric is modelled with
`Char.isAlphanum` (ASCII), which agrees with the full Unicode classes on every
input the claims use. -/
def simpleTokAux : List Char → Nat → String → Nat → List Token
  | [], pos, cur, start =>
      if cur.isEmpty then [] else [⟨cur, start, pos⟩]
  | c :: rest, pos, cur, start =>
      if c.isAlphanum then
        if cur.isEmpty then
          simpleTokAux rest (pos + c.utf8Size) (String.singleton c) pos
        else
          simpleTokAux rest (pos + c.utf8Size) (cur.push c) start
      else
        if cur.isEmpty then
          simpleTokAux rest (pos + c.utf8Size) "" 0
        else
          ⟨cur, start, pos⟩ :: simpleTokAux rest (pos + c.utf8Size) "" 0

/-- Modelled from the spec: top-level entry point of the `simple` tokenizer. -/
def simpleTokenize (s : String) : List Token :=
  simpleTokAux s.data 0 "" 0

/-- A tokenizer instance as produced by the tokenizer factories.  The
argument-taking factory (`ngram`) receives its arguments as the serialized
JSON text, exactly as the source hands it over (`tokenizer_args.as_ref()`). -/
inductive TokenizerInst where
  | facet : TokenizerInst
  | ngram : String → TokenizerInst
  | raw : TokenizerInst
  | simple : TokenizerInst
deriving DecidableEq, Repr

/-- A filter instance as produced by the filter factories.  The
argument-taking factories (`remove_long`, `stemming`, `stop_word`) receive
their arguments as the serialized JSON text (`filter_args.as_ref()`); the
others are built with no arguments, exactly as in the source. -/
inductive FilterInst where
  | alphaNumOnly : FilterInst
  | asciiFolding : FilterInst
  | lowerCase : FilterInst
  | removeLong : String → FilterInst
  | stemming : String → FilterInst
  | stopWord : String → FilterInst
deriving DecidableEq, Repr

/-- Modelled from the spec: running a tokenizer instance on text
(`tokenizer.token_stream(text)` collected to a list).  The registered value
in the source is the bare tokenizer produced by the factory, so this is also
what `analyze` runs.  `simple` and `raw` follow the spec's description; the
`facet` and `ngram` algorithms are explicitly out of the spec's scope (§1)
and no claim evaluates them, so they are left producing no tokens. -/
def tokenize : TokenizerInst → String → List Token
  | .simple, s => simpleTokenize s
  | .raw, s => [⟨s, 0, s.utf8ByteSize⟩]
  | .facet, _ => []
  | .ngram _, _ => []

/-- The ways `TokenizerInitializer::init` can abort: a shape `.unwrap()`
panic, a missing-key index panic on a `serde_json::Map`, and the two explicit
`panic!` calls for unknown component kinds. -/
inductive InitError where
  | structural : InitError
  | missingKey : String → InitError
  | unknownFilter : String → InitError
  | unknownTokenizer : String → InitError
deriving DecidableEq, Repr

/-- Whether an error is one of the two unknown-component-kind panics. -/
def InitError.isUnknownComponent : InitError → Bool
  | .unknownFilter _ => true
  | .unknownTokenizer _ => true
  | _ => false

/-- Lines 63–67 / 81–85 of the source: the argument string handed to a
factory.  If the settings object contains `"args"`, it is the serialization
of that value (`serde_json::to_string`); otherwise `String::new()`. -/
def argsString (settings : List (String × Json)) : String :=
  match jlookup settings "args" with
  | some v => v.render
  | none => ""

/-- The `match filter_name` at lines 88–129: dispatch a filter name to its
factory, the argument-taking factories receiving the argument string; any
other name hits `panic!("unknown filter: ...")`. -/
def mkFilter (name : String) (args : String) : Except InitError FilterInst :=
  if name = "alpha_num_only" then .ok .alphaNumOnly
  else if name = "ascii_folding" then .ok .asciiFolding
  else if name = "lower_case" then .ok .lowerCase
  else if name = "remove_long" then .ok (.removeLong args)
  else if name = "stemming" then .ok (.stemming args)
  else if name = "stop_word" then .ok (.stopWord args)
  else .error (.unknownFilter name)

/-- The `match tokenizer_name` at lines 134–173 (component dispatch only):
dispatch a tokenizer name to its factory, `ngram` receiving the argument
string; any other name hits `panic!("unknown tokenizer: ...")`. -/
def mkTokenizer (name : String) (args : String) : Except InitError TokenizerInst :=
  if name = "facet" then .ok .facet
  else if name = "ngram" then .ok (.ngram args)
  else if name = "raw" then .ok .raw
  else if name = "simple" then .ok .simple
  else .error (.unknownTokenizer name)

/-- Lines 74–129: processing of one element of the `filters` array.  The
element must be an object (`as_object().unwrap()`), its `"name"` field must
exist (`Map` index panic otherwise) and be a string (`as_str().unwrap()`);
then the factory runs on the argument string. -/
def compileFilter (fv : Json) : Except InitError FilterInst :=
  match fv.asObj? with
  | none => .error .structural
  | some fs =>
    match jlookup fs "name" with
    | none => .error (.missingKey "name")
    | some nameJ =>
      match nameJ.asStr? with
      | none => .error .structural
      | some name => mkFilter name (argsString fs)

/-- The `for filter_config_value in filters_config_value` loop: each filter is
built in order; the first failing one aborts (panics). -/
def compileFilters : List Json → Except InitError (List FilterInst)
  | [] => .ok []
  | fv :: rest =>
    match compileFilter fv with
    | .error e => .error e
    | .ok f =>
      match compileFilters rest with
      | .error e => .error e
      | .ok fs => .ok (f :: fs)

/-- Lines 54–173, processing of one configuration entry, in source order:
the entry value must be an object; its `"tokenizer"` field must exist and be
an object with a string `"name"`; the tokenizer's argument string is read;
then, if a `"filters"` field is present, it must be an array and every
element is compiled (the source builds each filter and immediately discards
it — the `filters.push` calls are commented out — so the filter list is
dropped here too and only its error matters); finally the tokenizer itself is
built from its name and argument string.  Note that although the tokenizer's
name is *read* before the filter loop, the tokenizer is only *instantiated*
after it. -/
def compileEntry (v : Json) : Except InitError TokenizerInst :=
  match v.asObj? with
  | none => .error .structural
  | some m =>
    match jlookup m "tokenizer" with
    | none => .error (.missingKey "tokenizer")
    | some tokJ =>
      match tokJ.asObj? with
      | none => .error .structural
      | some settings =>
        match jlookup settings "name" with
        | none => .error (.missingKey "name")
        | some nameJ =>
          match nameJ.asStr? with
          | none => .error .structural
          | some tokName =>
            match jlookup m "filters" with
            | none => mkTokenizer tokName (argsString settings)
            | some fJ =>
              match fJ.asArr? with
              | none => .error .structural
              | some fvs =>
                match compileFilters fvs with
                | .error e => .error e
                | .ok _ => mkTokenizer tokName (argsString settings)

/-- The analyzer registry.  Modelled from the spec: the concrete store is
tantivy's `TokenizerManager`, which is not under `src/`; per the spec it is a
name-keyed mapping where `register(name, analyzer)` inserts or overwrites and
`get(name)` returns the registered analyzer or a not-found result. -/
def Registry : Type := List (String × TokenizerInst)

/-- Modelled from the spec: `get(name)` on the registry. -/
def Registry.get : Registry → String → Option TokenizerInst
  | [], _ => none
  | (n, t) :: rest, key => if n = key then some t else Registry.get rest key

/-- Modelled from the spec: `register(name, analyzer)` inserts a new entry or
overwrites an existing one. -/
def Registry.register : Registry → String → TokenizerInst → Registry
  | [], key, t => [(key, t)]
  | (n, u) :: rest, key, t =>
      if n = key then (key, t) :: rest else (n, u) :: Registry.register rest key t

/-- The `for (name, tokenizer_config_value) in config_map` loop of `init`:
entries are processed one at a time in the mapping's iteration order; a
successfully compiled entry is registered at once (`manager.register`), and
the first failing entry aborts the run (panic), leaving every registration
made so far in place. -/
def initEntries (reg : Registry) : List (String × Json) → Registry × Option InitError
  | [] => (reg, none)
  | (name, v) :: rest =>
    match compileEntry v with
    | .error e => (reg, some e)
    | .ok t => initEntries (Registry.register reg name t) rest

/-- `TokenizerInitializer::init`, taking the already parsed configuration
value (the textual parse `serde_json::from_str` is external): the top-level
value must be an object (`as_object().unwrap()`), then the entries are
processed in order. -/
def init (reg : Registry) (config : Json) : Registry × Option InitError :=
  match config.asObj? with
  | none => (reg, some .structural)
  | some entries => initEntries reg entries

/-- The registrations performed by a run of the entry loop over a prefix in
which every entry compiles: each entry's tokenizer is registered in order
(used to describe the registry state left behind by a failing run). -/
def registerAll (reg : Registry) : List (String × Json) → Registry
  | [] => reg
  | (name, v) :: rest =>
    match compileEntry v with
    | .ok t => registerAll (Registry.register reg name t) rest
    | .error _ => reg

/-- The filter kinds the dispatch at lines 88–129 recognizes. -/
def knownFilterName (s : String) : Bool :=
  s == "alpha_num_only" || s == "ascii_folding" || s == "lower_case" ||
  s == "remove_long" || s == "stemming" || s == "stop_word"

/-- A structurally valid filter reference whose kind name is not one of the
built-in filter kinds. -/
def isUnknownFilterRef (fv : Json) : Bool :=
  match fv.asObj? with
  | some fs =>
    match jlookup fs "name" with
    | some nameJ =>
      match nameJ.asStr? with
      | some n => !(knownFilterName n)
      | none => false
    | none => false
  | none => false

/-- A configuration entry whose `filters` array contains a filter reference
with an unknown kind name. -/
def entryHasUnknownFilterRef (v : Json) : Bool :=
  match v.asObj? with
  | some m =>
    match jlookup m "filters" with
    | some fJ =>
      match fJ.asArr? with
      | some fvs => fvs.any isUnknownFilterRef
      | none => false
    | none => false
  | none => false

/-- The structural requirements on one element of the `filters` array: an
object with a string `"name"` field. -/
def wellFormedFilterRef (fv : Json) : Bool :=
  match fv.asObj? with
  | none => false
  | some fs =>
    match jlookup fs "name" with
    | none => false
    | some nameJ => (nameJ.asStr?).isSome

/-- The structural requirements on one configuration entry's value: an object
holding a `tokenizer` object with a string `name`, and, when a `filters`
field is present, an array of well-formed filter references. -/
def wellFormedEntry (v : Json) : Bool :=
  match v.asObj? with
  | none => false
  | some m =>
    match jlookup m "tokenizer" with
    | none => false
    | some tokJ =>
      match tokJ.asObj? with
      | none => false
      | some settings =>
        match jlookup settings "name" with
        | none => false
        | some nameJ =>
          if (nameJ.asStr?).isSome then
            match jlookup m "filters" with
            | none => true
            | some fJ =>
              match fJ.asArr? with
              | none => false
              | some fvs => fvs.all wellFormedFilterRef
          else false

/-! ### Concrete configurations used by the individual claims -/

/-- A pipeline with the `simple` tokenizer and the single filter
`lower_case` under the analyzer name `"p"`. -/
def cfgC1 : Json :=
  .obj [("p", .obj
    [("tokenizer", .obj [("name", .str "simple")]),
     ("filters", .arr [.obj [("name", .str "lower_case")]])])]

/-- The stop-word list of the end-to-end scenario. -/
def stopWordsC2 : List Json :=
  [.str "a", .str "an", .str "and", .str "are", .str "as", .str "at",
   .str "be", .str "but", .str "by", .str "for", .str "if", .str "in",
   .str "into", .str "is", .str "it", .str "no", .str "not", .str "of",
   .str "on", .str "or", .str "such", .str "that", .str "the",
   .str "their", .str "then", .str "there", .str "these", .str "they",
   .str "this", .str "to", .str "was", .str "will", .str "with"]

/-- The end-to-end scenario's configuration: tokenizer `simple`, filters
`remove_long(length_limit=50)`, `lower_case`, `stemming("english")`,
`stop_word(words=[...])`, under the analyzer name `"en_text"`. -/
def cfgC2 : Json :=
  .obj [("en_text", .obj
    [("tokenizer", .obj [("name", .str "simple")]),
     ("filters", .arr
       [.obj [("name", .str "remove_long"),
              ("args", .obj [("length_limit", .num 50)])],
        .obj [("name", .str "lower_case")],
        .obj [("name", .str "stemming"),
              ("args", .obj [("stemmer_algorithm", .str "english")])],
        .obj [("name", .str "stop_word"),
              ("args", .obj [("words", .arr stopWordsC2)])]])])]

/-- The single-entry configuration with an unknown tokenizer kind. -/
def cfgC3 : Json :=
  .obj [("p", .obj [("tokenizer", .obj [("name", .str "bogus")])])]

/-- A single pipeline whose tokenizer kind and whose only filter kind are
both unknown. -/
def cfgC4 : Json :=
  .obj [("p", .obj
    [("tokenizer", .obj [("name", .str "bogus_tok")]),
     ("filters", .arr [.obj [("name", .str "bogus_filter")]])])]

/-- A well-formed pipeline whose filter list contains the unknown filter
kind `"zzz"`. -/
def cfgC5entry : Json :=
  .obj [("tokenizer", .obj [("name", .str "simple")]),
        ("filters", .arr [.obj [("name", .str "zzz")]])]

/-- A configuration containing an unknown-filter reference (in entry `"b"`)
preceded in iteration order by a malformed entry (`"a"`, not an object). -/
def cfgC5 : Json :=
  .obj [("a", .num 0), ("b", cfgC5entry)]

/-- A valid single-pipeline entry using the `simple` tokenizer. -/
def eSimpleC7 : Json :=
  .obj [("tokenizer", .obj [("name", .str "simple")])]

/-- A valid single-pipeline entry using the `raw` tokenizer. -/
def eRawC7 : Json :=
  .obj [("tokenizer", .obj [("name", .str "raw")])]

/-- A filter reference with kind `stemming` and an `args` object. -/
def fsC8 : List (String × Json) :=
  [("name", .str "stemming"),
   ("args", .obj [("stemmer_algorithm", .str "english")])]

/-- Tokenizer settings with kind `ngram` and an `args` object. -/
def settingsC8 : List (String × Json) :=
  [("name", .str "ngram"), ("args", .obj [("min_gram", .num 2)])]

/-- An entry whose tokenizer is the `ngram` reference of `settingsC8`. -/
def mC8 : List (String × Json) :=
  [("tokenizer", .obj settingsC8)]

/-- A filter reference with kind `stop_word` and no `args` field. -/
def fsC9 : List (String × Json) :=
  [("name", .str "stop_word")]

/-- Tokenizer settings with kind `ngram` and no `args` field. -/
def settingsC9 : List (String × Json) :=
  [("name", .str "ngram")]

/-- An entry whose tokenizer is the argument-less `ngram` of `settingsC9`. -/
def mC9 : List (String × Json) :=
  [("tokenizer", .obj settingsC9)]

/-- A valid single-pipeline entry using the `simple` tokenizer. -/
def eC10 : Json :=
  .obj [("tokenizer", .obj [("name", .str "simple")])]

/-! ### Helper lemmas -/

theorem register_get (r : Registry) (k : String) (t : TokenizerInst) :
    (Registry.register r k t).get k = some t := by
  induction r with
  | nil => simp [Registry.register, Registry.get]
  | cons p rest ih =>
    obtain ⟨n, u⟩ := p
    by_cases h : n = k
    · simp [Registry.register, Registry.get, h]
    · simp [Registry.register, Registry.get, h, ih]

theorem initEntries_snd_ne_none (entries : List (String × Json)) (n : String)
    (v : Json) (reg : Registry) (hmem : (n, v) ∈ entries)
    (hfail : ∀ t, compileEntry v ≠ .ok t) :
    (initEntries reg entries).2 ≠ none := by
  induction entries generalizing reg with
  | nil => cases hmem
  | cons hd tl ih =>
    obtain ⟨hn, hv⟩ := hd
    cases hc : compileEntry hv with
    | error e => simp [initEntries, hc]
    | ok t =>
      rcases List.mem_cons.mp hmem with heq | hmem2
      · cases heq
        exact absurd hc (hfail t)
      · simpa [initEntries, hc] using ih (Registry.register reg hn t) hmem2

theorem mkFilter_unknown (n a : String) (h : knownFilterName n = false) :
    mkFilter n a = .error (.unknownFilter n) := by
  simp only [knownFilterName, Bool.or_eq_false_iff, beq_eq_false_iff_ne] at h
  obtain ⟨⟨⟨⟨⟨h1, h2⟩, h3⟩, h4⟩, h5⟩, h6⟩ := h
  simp [mkFilter, h1, h2, h3, h4, h5, h6]

theorem compileFilter_unknown (fv : Json) (h : isUnknownFilterRef fv = true) :
    ∃ n, compileFilter fv = .error (.unknownFilter n) := by
  unfold isUnknownFilterRef at h
  unfold compileFilter
  cases hobj : fv.asObj? <;> simp only [hobj] at h ⊢
  case none => exact absurd h (by simp)
  case some fs =>
  cases hn : jlookup fs "name" <;> simp only [hn] at h ⊢
  case none => exact absurd h (by simp)
  case some nameJ =>
  cases hs : nameJ.asStr? <;> simp only [hs] at h ⊢
  case none => exact absurd h (by simp)
  case some s =>
  simp only [Bool.not_eq_eq_eq_not, Bool.not_true] at h
  exact ⟨s, mkFilter_unknown s _ h⟩

theorem compileFilters_not_ok (fvs : List Json) (fv : Json) (hmem : fv ∈ fvs)
    (h : isUnknownFilterRef fv = true) :
    ∀ fs, compileFilters fvs ≠ .ok fs := by
  induction fvs with
  | nil => cases hmem
  | cons hd tl ih =>
    intro fs hok
    unfold compileFilters at hok
    cases hc : compileFilter hd <;> simp only [hc] at hok
    · exact Except.noConfusion hok
    · cases ht : compileFilters tl <;> simp only [ht] at hok
      · exact Except.noConfusion hok
      · rcases List.mem_cons.mp hmem with rfl | hmem2
        · obtain ⟨n, he⟩ := compileFilter_unknown fv h
          rw [he] at hc
          exact Except.noConfusion hc
        · exact ih hmem2 _ ht

theorem compileEntry_not_ok_of_unknownFilter (v : Json)
    (h : entryHasUnknownFilterRef v = true) :
    ∀ t, compileEntry v ≠ .ok t := by
  intro t hok
  unfold entryHasUnknownFilterRef at h
  cases hobj : v.asObj? <;> simp only [hobj] at h
  case none => exact absurd h (by simp)
  case some m =>
  cases hf : jlookup m "filters" <;> simp only [hf] at h
  case none => exact absurd h (by simp)
  case some fJ =>
  cases ha : fJ.asArr? <;> simp only [ha] at h
  case none => exact absurd h (by simp)
  case some fvs =>
  obtain ⟨fv, hmem, hfv⟩ := List.any_eq_true.mp h
  unfold compileEntry at hok
  simp only [hobj, hf, ha] at hok
  cases htok : jlookup m "tokenizer" <;> simp only [htok] at hok
  case none => exact Except.noConfusion hok
  case some tokJ =>
  cases hto : tokJ.asObj? <;> simp only [hto] at hok
  case none => exact Except.noConfusion hok
  case some settings =>
  cases hnm : jlookup settings "name" <;> simp only [hnm] at hok
  case none => exact Except.noConfusion hok
  case some nameJ =>
  cases hns : nameJ.asStr? <;> simp only [hns] at hok
  case none => exact Except.noConfusion hok
  case some tokName =>
  cases hcf : compileFilters fvs <;> simp only [hcf] at hok
  case error => exact Except.noConfusion hok
  case ok fs => exact compileFilters_not_ok fvs fv hmem hfv fs hcf

theorem compileFilter_unknown_named (fs : List (String × Json)) (fnJ : Json)
    (fn : String) (hn : jlookup fs "name" = some fnJ)
    (hs : fnJ.asStr? = some fn) (hk : knownFilterName fn = false) :
    compileFilter (Json.obj fs) = .error (.unknownFilter fn) := by
  unfold compileFilter
  simp only [Json.asObj?, hn, hs]
  exact mkFilter_unknown fn _ hk

theorem compileFilters_first_error (fpre : List Json) (fv : Json)
    (frest : List Json) (e : InitError)
    (hpre : ∀ f ∈ fpre, ∃ g, compileFilter f = .ok g)
    (hv : compileFilter fv = .error e) :
    compileFilters (fpre ++ fv :: frest) = .error e := by
  induction fpre with
  | nil => simp [compileFilters, hv]
  | cons hd tl ih =>
    obtain ⟨g, hg⟩ := hpre hd (List.Mem.head _)
    have hrest := ih fun f hf => hpre f (List.Mem.tail _ hf)
    simp only [List.cons_append, compileFilters, hg, List.append_eq, hrest]

theorem compileEntry_filter_stage_error
    (m settings : List (String × Json)) (nameJ : Json) (tokName : String)
    (fJ : Json) (fvs : List Json) (e : InitError)
    (hm : jlookup m "tokenizer" = some (Json.obj settings))
    (hn : jlookup settings "name" = some nameJ)
    (hs : nameJ.asStr? = some tokName)
    (hf : jlookup m "filters" = some fJ)
    (ha : fJ.asArr? = some fvs)
    (he : compileFilters fvs = .error e) :
    compileEntry (Json.obj m) = .error e := by
  unfold compileEntry
  simp only [Json.asObj?, hm, hn, hs, hf, ha, he]

theorem initEntries_stops_at_error (pre post : List (String × Json))
    (n : String) (v : Json) (e : InitError) (reg : Registry)
    (hpre : ∀ p ∈ pre, ∃ t, compileEntry p.2 = .ok t)
    (hv : compileEntry v = .error e) :
    (initEntries reg (pre ++ (n, v) :: post)).2 = some e := by
  have key : ∀ (pr : List (String × Json)) (r : Registry),
      (∀ p ∈ pr, ∃ t, compileEntry p.2 = .ok t) →
      (initEntries r (pr ++ (n, v) :: post)).2 = some e := by
    intro pr
    induction pr with
    | nil =>
      intro r _
      simp [initEntries, hv]
    | cons hd tl ih =>
      intro r hpre2
      obtain ⟨t, ht⟩ := hpre2 hd (List.Mem.head _)
      obtain ⟨hn2, hv2⟩ := hd
      simp only [List.cons_append, initEntries, ht]
      exact ih (Registry.register r hn2 t)
        fun p hp => hpre2 p (List.Mem.tail _ hp)
  exact key pre reg hpre

theorem filterRef_wellFormed_of_ok (fv : Json) (f : FilterInst)
    (h : compileFilter fv = .ok f) : wellFormedFilterRef fv = true := by
  unfold compileFilter at h
  unfold wellFormedFilterRef
  cases hobj : fv.asObj? <;> simp only [hobj] at h ⊢
  case none => exact Except.noConfusion h
  case some fs =>
  cases hn : jlookup fs "name" <;> simp only [hn] at h ⊢
  case none => exact Except.noConfusion h
  case some nameJ =>
  cases hs : nameJ.asStr? <;> simp only [hs] at h ⊢
  case none => exact Except.noConfusion h
  case some s => rfl

theorem filters_wellFormed_of_ok (fvs : List Json) (fs : List FilterInst)
    (h : compileFilters fvs = .ok fs) :
    fvs.all wellFormedFilterRef = true := by
  induction fvs generalizing fs with
  | nil => rfl
  | cons hd tl ih =>
    unfold compileFilters at h
    cases hc : compileFilter hd <;> simp only [hc] at h
    · exact Except.noConfusion h
    · cases ht : compileFilters tl <;> simp only [ht] at h
      · exact Except.noConfusion h
      · simp [List.all_cons, filterRef_wellFormed_of_ok hd _ hc, ih _ ht]

theorem wellFormed_of_compileEntry_ok (v : Json) (t : TokenizerInst)
    (h : compileEntry v = .ok t) : wellFormedEntry v = true := by
  unfold compileEntry at h
  unfold wellFormedEntry
  cases hobj : v.asObj? <;> simp only [hobj] at h ⊢
  case none => exact Except.noConfusion h
  case some m =>
  cases htok : jlookup m "tokenizer" <;> simp only [htok] at h ⊢
  case none => exact Except.noConfusion h
  case some tokJ =>
  cases hto : tokJ.asObj? <;> simp only [hto] at h ⊢
  case none => exact Except.noConfusion h
  case some settings =>
  cases hnm : jlookup settings "name" <;> simp only [hnm] at h ⊢
  case none => exact Except.noConfusion h
  case some nameJ =>
  cases hns : nameJ.asStr? <;> simp only [hns] at h ⊢
  case none => exact Except.noConfusion h
  case some tokName =>
  simp only [Option.isSome_some, if_true]
  cases hf : jlookup m "filters" <;> simp only [hf] at h ⊢
  case some fJ =>
  cases ha : fJ.asArr? <;> simp only [ha] at h ⊢
  case none => exact Except.noConfusion h
  case some fvs =>
  cases hcf : compileFilters fvs <;> simp only [hcf] at h
  case error => exact Except.noConfusion h
  case ok fs => exact filters_wellFormed_of_ok fvs fs hcf

/-! ### Claims -/

/-- Claim C1.  The claim says that for an analyzer compiled from a spec with a
non-empty filter list, `analyze` threads the tokenizer output through every
configured filter, so the filters affect the output.  The code does not do
this: filter instances are built and immediately dropped (the `filters.push`
and filter-attach loops are commented out) and the bare tokenizer is
registered.  This theorem evaluates the code at the failing input: the config
declares the `lower_case` filter, initialization succeeds, the registered
analyzer is the bare `simple` tokenizer, and analyzing `"HELLO world!"`
returns the token `"HELLO"` un-lowercased — so the configured filter did not
affect the output, contradicting the claim (and the repository's own test,
which expects `"hello"`). -/
theorem c1_filters_are_dropped :
    (init [] cfgC1).2 = none ∧
    (init [] cfgC1).1.get "p" = some TokenizerInst.simple ∧
    tokenize TokenizerInst.simple "HELLO world!" =
      [⟨"HELLO", 0, 5⟩, ⟨"world", 6, 11⟩] ∧
    tokenize TokenizerInst.simple "HELLO world!" ≠
      [⟨"hello", 0, 5⟩, ⟨"world", 6, 11⟩] := by
  refine ⟨rfl, rfl, rfl, ?_⟩
  decide

/-- Claim C2.  The claim (and the repository's own test `tests::test_tokenizer`)
says the end-to-end configuration applied to `"HELLO world!"` yields exactly
`"hello"` (0,5) and `"world"` (6,11).  Because the initializer discards every
constructed filter and registers the bare `simple` tokenizer, the analyzer
actually produces `"HELLO"` (0,5) and `"world"` (6,11): the offsets and count
match but the first token is not lower-cased.  This theorem evaluates the
code at the failing input. -/
theorem c2_end_to_end_scenario :
    (init [] cfgC2).2 = none ∧
    (init [] cfgC2).1.get "en_text" = some TokenizerInst.simple ∧
    tokenize TokenizerInst.simple "HELLO world!" =
      [⟨"HELLO", 0, 5⟩, ⟨"world", 6, 11⟩] ∧
    tokenize TokenizerInst.simple "HELLO world!" ≠
      [⟨"hello", 0, 5⟩, ⟨"world", 6, 11⟩] := by
  refine ⟨rfl, rfl, rfl, ?_⟩
  decide

/-- Claim C3: initializing with `{"p": {"tokenizer": {"name": "bogus"}}}`
fails with the unknown-tokenizer panic, and afterwards no analyzer is
registered under any name (starting from an empty registry, the registry is
still empty). -/
theorem c3_unknown_tokenizer_registers_nothing :
    (init [] cfgC3).2 = some (InitError.unknownTokenizer "bogus") ∧
    ∀ n, (init [] cfgC3).1.get n = none :=
  ⟨rfl, fun _ => rfl⟩

/-- Claim C4, counterexample.  The claim says that when both the tokenizer
kind and some filter kind are unknown, the reported error is the tokenizer's
unknown-kind error.  On `cfgC4` (tokenizer `"bogus_tok"`, filter
`"bogus_filter"`, both unknown) initialization actually fails with the
*filter's* unknown-kind error: the filter loop (lines 74–131) runs before
the tokenizer dispatch (lines 134–173). -/
theorem c4_counterexample :
    (init [] cfgC4).2 = some (InitError.unknownFilter "bogus_filter") ∧
    ∀ s, some (InitError.unknownFilter "bogus_filter") ≠
         some (InitError.unknownTokenizer s) :=
  ⟨rfl, fun _ => by simp⟩

/-- Claim C4, amended.  The initializer *reads* the tokenizer's name and args
first, but *instantiates* the filters first, in declared order, and only
afterwards instantiates and registers the tokenizer; consequently, whenever
the filter stage fails — in particular at an unknown filter kind — its error
is the one reported, regardless of the tokenizer's kind (known or not). -/
theorem c4_amended_filter_error_precedes_tokenizer
    (m settings : List (String × Json)) (nameJ : Json) (tokName : String)
    (fJ : Json) (fvs : List Json) (e : InitError)
    (hm : jlookup m "tokenizer" = some (Json.obj settings))
    (hn : jlookup settings "name" = some nameJ)
    (hs : nameJ.asStr? = some tokName)
    (hf : jlookup m "filters" = some fJ)
    (ha : fJ.asArr? = some fvs)
    (he : compileFilters fvs = .error e) :
    compileEntry (Json.obj m) = .error e := by
  unfold compileEntry
  simp only [Json.asObj?, hm, hn, hs, hf, ha, he]

/-- Witness for the amended C4 at the concrete both-unknown pipeline of
`cfgC4`: the reported error is the filter's. -/
theorem c4_amended_witness :
    compileEntry (Json.obj
      [("tokenizer", Json.obj [("name", Json.str "bogus_tok")]),
       ("filters", Json.arr [Json.obj [("name", Json.str "bogus_filter")]])]) =
      .error (.unknownFilter "bogus_filter") :=
  c4_amended_filter_error_precedes_tokenizer _ _ _ "bogus_tok" _
    [Json.obj [("name", Json.str "bogus_filter")]]
    (.unknownFilter "bogus_filter") rfl rfl rfl rfl rfl rfl

/-- Claim C5, counterexample.  The claim says every configuration containing
a filter reference of unknown kind fails with an unknown-component-kind
error.  `cfgC5` contains such a reference (in entry `"b"`), but the run
aborts earlier, at the malformed entry `"a"`, with a structural error that
is not an unknown-component-kind error. -/
theorem c5_counterexample :
    entryHasUnknownFilterRef cfgC5entry = true ∧
    ("b", cfgC5entry) ∈ [("a", Json.num 0), ("b", cfgC5entry)] ∧
    cfgC5 = Json.obj [("a", Json.num 0), ("b", cfgC5entry)] ∧
    (init [] cfgC5).2 = some InitError.structural ∧
    InitError.isUnknownComponent InitError.structural = false := by
  refine ⟨rfl, by simp, rfl, rfl, rfl⟩

/-- Claim C5, amended.  First part: for every configuration containing a
filter reference whose kind name is not one of the built-in filter kinds,
initialization fails as a whole (the run always aborts).  Second part: when
that reference is the first failure reached in iteration order — every
earlier entry compiles, the entry holding it is well-shaped, and every
earlier filter in its list compiles — the error reported by the run is
exactly that filter's unknown-component-kind error `unknownFilter fn`
(an entry failing earlier reports its own error instead, as the C5
counterexample shows). -/
theorem c5_amended_unknown_filter_aborts :
    (∀ (reg : Registry) (entries : List (String × Json)) (n : String)
        (v : Json), (n, v) ∈ entries → entryHasUnknownFilterRef v = true →
        (init reg (Json.obj entries)).2 ≠ none) ∧
    (∀ (reg : Registry) (pre post : List (String × Json)) (n : String)
        (m settings fs : List (String × Json)) (nameJ fnJ fJ : Json)
        (tokName fn : String) (fpre frest : List Json),
        (∀ p ∈ pre, ∃ t, compileEntry p.2 = .ok t) →
        jlookup m "tokenizer" = some (Json.obj settings) →
        jlookup settings "name" = some nameJ →
        nameJ.asStr? = some tokName →
        jlookup m "filters" = some fJ →
        fJ.asArr? = some (fpre ++ Json.obj fs :: frest) →
        (∀ f ∈ fpre, ∃ g, compileFilter f = .ok g) →
        jlookup fs "name" = some fnJ →
        fnJ.asStr? = some fn →
        knownFilterName fn = false →
        (init reg (Json.obj (pre ++ (n, Json.obj m) :: post))).2 =
          some (InitError.unknownFilter fn)) := by
  constructor
  · intro reg entries n v hmem hbad
    exact initEntries_snd_ne_none entries n v reg hmem
      (compileEntry_not_ok_of_unknownFilter v hbad)
  · intro reg pre post n m settings fs nameJ fnJ fJ tokName fn fpre frest
      hpre hm hn hs hf ha hfpre hfn hfs hk
    have h1 : compileFilter (Json.obj fs) = .error (.unknownFilter fn) :=
      compileFilter_unknown_named fs fnJ fn hfn hfs hk
    have h2 : compileFilters (fpre ++ Json.obj fs :: frest) =
        .error (.unknownFilter fn) :=
      compileFilters_first_error fpre (Json.obj fs) frest _ hfpre h1
    have h3 : compileEntry (Json.obj m) = .error (.unknownFilter fn) :=
      compileEntry_filter_stage_error m settings nameJ tokName fJ _ _
        hm hn hs hf ha h2
    exact initEntries_stops_at_error pre post n (Json.obj m) _ reg hpre h3

/-- Witness for the amended C5: a single-entry configuration whose filter
list names the unknown kind `"zzz"` makes initialization fail, and — the
reference being the first failure reached — the reported error is exactly
`unknownFilter "zzz"`. -/
theorem c5_amended_witness :
    (init [] (Json.obj [("p", cfgC5entry)])).2 ≠ none ∧
    (init [] (Json.obj [("p", cfgC5entry)])).2 =
      some (InitError.unknownFilter "zzz") :=
  ⟨c5_amended_unknown_filter_aborts.1 [] [("p", cfgC5entry)] "p" cfgC5entry
     (List.Mem.head _) rfl,
   c5_amended_unknown_filter_aborts.2 [] [] [] "p"
     [("tokenizer", Json.obj [("name", Json.str "simple")]),
      ("filters", Json.arr [Json.obj [("name", Json.str "zzz")]])]
     [("name", Json.str "simple")] [("name", Json.str "zzz")]
     (Json.str "simple") (Json.str "zzz")
     (Json.arr [Json.obj [("name", Json.str "zzz")]]) "simple" "zzz" [] []
     (fun p hp => absurd hp (List.not_mem_nil p)) rfl rfl rfl rfl rfl
     (fun f hf => absurd hf (List.not_mem_nil f)) rfl rfl rfl⟩

/-- Claim C6: any deviation of the configuration document from the required
shape — a top-level value that is not an object, or any entry that is not an
object, lacks a `tokenizer` object with a string `name`, has a non-array
`filters` field, or has a filter element that is not an object with a string
`name` (all of which `wellFormedEntry` checks) — makes the whole
initialization fail: the run always reports an error, so no malformed entry
is ever skipped in favor of accepting the rest. -/
theorem c6_any_deviation_fails (reg : Registry) (cfg : Json)
    (hdev : cfg.asObj? = none ∨
      ∃ entries n v, cfg = Json.obj entries ∧ (n, v) ∈ entries ∧
        wellFormedEntry v = false) :
    (init reg cfg).2 ≠ none := by
  rcases hdev with h | ⟨entries, n, v, rfl, hmem, hwf⟩
  · simp [init, h]
  · refine initEntries_snd_ne_none entries n v reg hmem ?_
    intro t hok
    rw [wellFormed_of_compileEntry_ok v t hok] at hwf
    exact Bool.noConfusion hwf

/-- Witness for C6: an entry whose value is a number, not an object, fails
the whole run. -/
theorem c6_witness : (init [] (Json.obj [("p", Json.num 7)])).2 ≠ none :=
  c6_any_deviation_fails [] (Json.obj [("p", Json.num 7)])
    (Or.inr ⟨[("p", Json.num 7)], "p", Json.num 7, rfl, List.Mem.head _, rfl⟩)

/-- Claim C7: when two pipeline specs in one configuration share a name and
each compiles, initialization succeeds and the registry maps the name to the
analyzer of the later spec in declaration order; and `register` always
inserts a new entry or overwrites an existing one. -/
theorem c7_last_write_wins (reg : Registry) (n : String) (v1 v2 : Json)
    (t1 t2 : TokenizerInst)
    (h1 : compileEntry v1 = .ok t1) (h2 : compileEntry v2 = .ok t2) :
    ((init reg (Json.obj [(n, v1), (n, v2)])).2 = none ∧
     (init reg (Json.obj [(n, v1), (n, v2)])).1.get n = some t2) ∧
    ∀ (r : Registry) (k : String) (t : TokenizerInst),
      (Registry.register r k t).get k = some t := by
  refine ⟨?_, fun r k t => register_get r k t⟩
  have hrun : init reg (Json.obj [(n, v1), (n, v2)]) =
      (Registry.register (Registry.register reg n t1) n t2, none) := by
    simp [init, Json.asObj?, initEntries, h1, h2]
  rw [hrun]
  exact ⟨rfl, register_get _ n t2⟩

/-- Witness for C7: two entries both named `"p"` (a `simple` and then a
`raw` pipeline); the registry ends up holding the `raw` tokenizer. -/
theorem c7_witness :
    ((init [] (Json.obj [("p", eSimpleC7), ("p", eRawC7)])).2 = none ∧
     (init [] (Json.obj [("p", eSimpleC7), ("p", eRawC7)])).1.get "p" =
       some TokenizerInst.raw) ∧
    ∀ (r : Registry) (k : String) (t : TokenizerInst),
      (Registry.register r k t).get k = some t :=
  c7_last_write_wins [] "p" eSimpleC7 eRawC7 .simple .raw rfl rfl

/-- Claim C8: when a tokenizer or filter reference has an `args` field, the
initializer hands the constructor exactly the textual re-serialization of the
parsed args value — `argsString` is the serialization itself, and the built
instances (`stemming` here for a filter, `ngram` for a tokenizer) hold that
exact string, with nothing filtered, renamed, or reinterpreted. -/
theorem c8_args_passthrough
    (fs m settings : List (String × Json)) (a b : Json)
    (hfn : jlookup fs "name" = some (Json.str "stemming"))
    (hfa : jlookup fs "args" = some a)
    (hmt : jlookup m "tokenizer" = some (Json.obj settings))
    (htn : jlookup settings "name" = some (Json.str "ngram"))
    (hta : jlookup settings "args" = some b)
    (hnf : jlookup m "filters" = none) :
    (∀ s v, jlookup s "args" = some v → argsString s = v.render) ∧
    compileFilter (Json.obj fs) = .ok (FilterInst.stemming a.render) ∧
    compileEntry (Json.obj m) = .ok (TokenizerInst.ngram b.render) := by
  refine ⟨fun s v hv => by simp [argsString, hv], ?_, ?_⟩
  · unfold compileFilter
    simp only [Json.asObj?, hfn, Json.asStr?]
    simp [mkFilter, argsString, hfa]
  · unfold compileEntry
    simp only [Json.asObj?, hmt, htn, Json.asStr?, hnf]
    simp [mkTokenizer, argsString, hta]

/-- Witness for C8 at concrete references: the `stemming` filter instance
holds the serialization of its args object, and likewise the `ngram`
tokenizer instance. -/
theorem c8_witness :
    (∀ s v, jlookup s "args" = some v → argsString s = v.render) ∧
    compileFilter (Json.obj fsC8) =
      .ok (FilterInst.stemming
        (Json.render (.obj [("stemmer_algorithm", .str "english")]))) ∧
    compileEntry (Json.obj mC8) =
      .ok (TokenizerInst.ngram (Json.render (.obj [("min_gram", .num 2)]))) :=
  c8_args_passthrough fsC8 mC8 settingsC8
    (.obj [("stemmer_algorithm", .str "english")])
    (.obj [("min_gram", .num 2)]) rfl rfl rfl rfl rfl rfl

/-- Claim C9: when a tokenizer or filter reference has no `args` field, the
constructor receives the empty string — not an absent/`None` marker (the
instance holds an actual string) and not the serialization of a default
empty JSON object. -/
theorem c9_absent_args_empty_string
    (fs m settings : List (String × Json))
    (hfn : jlookup fs "name" = some (Json.str "stop_word"))
    (hfa : jlookup fs "args" = none)
    (hmt : jlookup m "tokenizer" = some (Json.obj settings))
    (htn : jlookup settings "name" = some (Json.str "ngram"))
    (hta : jlookup settings "args" = none)
    (hnf : jlookup m "filters" = none) :
    (∀ s, jlookup s "args" = none → argsString s = "") ∧
    compileFilter (Json.obj fs) = .ok (FilterInst.stopWord "") ∧
    compileEntry (Json.obj m) = .ok (TokenizerInst.ngram "") ∧
    ("" : String) ≠ Json.render (Json.obj []) := by
  refine ⟨fun s hv => by simp [argsString, hv], ?_, ?_, by decide⟩
  · unfold compileFilter
    simp only [Json.asObj?, hfn, Json.asStr?]
    simp [mkFilter, argsString, hfa]
  · unfold compileEntry
    simp only [Json.asObj?, hmt, htn, Json.asStr?, hnf]
    simp [mkTokenizer, argsString, hta]

/-- Witness for C9 at concrete argument-less references. -/
theorem c9_witness :
    (∀ s, jlookup s "args" = none → argsString s = "") ∧
    compileFilter (Json.obj fsC9) = .ok (FilterInst.stopWord "") ∧
    compileEntry (Json.obj mC9) = .ok (TokenizerInst.ngram "") ∧
    ("" : String) ≠ Json.render (Json.obj []) :=
  c9_absent_args_empty_string fsC9 mC9 settingsC9 rfl rfl rfl rfl rfl rfl

/-- Claim C10: initialization is not atomic across entries.  Entries are
processed in iteration order; each successfully compiled entry is registered
before the next entry is examined; and when processing fails at some entry,
the run stops with that entry's error while the registry holds exactly the
registrations of every preceding entry (`registerAll`), which thus remain
registered. -/
theorem c10_prefix_remains_registered (reg : Registry)
    (pre post : List (String × Json)) (n : String) (v : Json) (e : InitError)
    (hpre : ∀ p ∈ pre, ∃ t, compileEntry p.2 = .ok t)
    (hv : compileEntry v = .error e) :
    init reg (Json.obj (pre ++ (n, v) :: post)) = (registerAll reg pre, some e) := by
  have key : ∀ (pr : List (String × Json)) (r : Registry),
      (∀ p ∈ pr, ∃ t, compileEntry p.2 = .ok t) →
      initEntries r (pr ++ (n, v) :: post) = (registerAll r pr, some e) := by
    intro pr
    induction pr with
    | nil =>
      intro r _
      simp [initEntries, hv, registerAll]
    | cons hd tl ih =>
      intro r hpre2
      obtain ⟨t, ht⟩ := hpre2 hd (List.Mem.head _)
      obtain ⟨hn2, hv2⟩ := hd
      simp only [List.cons_append, initEntries, registerAll, ht]
      exact ih (Registry.register r hn2 t)
        fun p hp => hpre2 p (List.Mem.tail _ hp)
  exact key pre reg hpre

/-- Witness for C10: entry `"a"` compiles and is registered; entry `"b"` is
malformed, so the run stops there with entry `"a"` still registered and
entry `"z"` never examined. -/
theorem c10_witness :
    init [] (Json.obj ([("a", eC10)] ++ ("b", Json.num 0) :: [("z", Json.null)])) =
      (registerAll [] [("a", eC10)], some InitError.structural) :=
  c10_prefix_remains_registered [] [("a", eC10)] [("z", Json.null)] "b"
    (Json.num 0) InitError.structural
    (fun p hp => by
      cases hp with
      | head => exact ⟨TokenizerInst.simple, rfl⟩
      | tail _ h => cases h)
    rfl

end Bayard
